import Mathlib

/-!
Verification of `pangeo_forge_recipes/transforms.py`.

The module contains one decorator, `_add_keys`, and two Beam composite
transforms, `OpenURLWithFSSpec` and `OpenWithXarray`, which wire the external
opener functions `open_url` and `open_with_xarray` into per-element `beam.Map`
stages over streams of `(Index, value)` pairs.

We embed the code shallowly:

* Python annotation expressions become the inductive `PyAnn`; the only
  constructor the decorator ever builds is `Tuple[Index, a]`, embedded as
  `PyAnn.tupleIndex a`.
* A function's `__annotations__` dict becomes an insertion-ordered association
  list `AnnDict` (Python dicts preserve insertion order; `d[k] = v` replaces
  the value in place when `k` is present and appends otherwise).
* The wrap-time body of `_add_keys` (lines 56-60), which can raise
  `StopIteration` (from `next(iter(...))` on an empty dict) or `KeyError`
  (from the `annotations["return"]` lookup), becomes `add_keys_anns`
  returning `Except WrapError AnnDict`.  The `.copy()` on line 56 is what the
  purity of `add_keys_anns` models: the input dict is never mutated.
* The runtime wrapper (lines 63-66) is embedded three times, once per effect
  discipline a wrapped Python callable may have: pure (`add_keys_wrapper`),
  exception-raising (`add_keys_wrapperE`), and state-touching
  (`add_keys_wrapperS`).  Each is the literal translation of
  `key, item = arg; result = func(item, **kwargs); return key, result`.
* A Python callable with declared positional parameters is `PyCallable`:
  its annotations, the number `arity` of positional parameters not supplied
  by the keyword configuration, and its behaviour `run`.  Calling it with a
  wrong number of positional arguments raises `TypeError`
  (`CallResult.typeError`).  The full decorator `add_keys` combines the
  wrap-time annotation processing with the wrapper construction.
* A Beam `PCollection` is a `List`, and `beam.Map(fn, **kw)` maps
  `fun x => fn x kw` over it.  The `Index` key type is kept opaque as a type
  parameter `K`, matching the spec's "opaque key ... never inspected".
-/

namespace PangeoForge

/-- Python type-annotation expressions as the decorator sees them: an opaque
base annotation (referred to by name), or `Tuple[Index, a]` as built on lines
58 and 60 of `transforms.py`. -/
inductive PyAnn where
  | atom : String → PyAnn
  | tupleIndex : PyAnn → PyAnn
deriving DecidableEq

/-- A Python `__annotations__` mapping: insertion-ordered key/value pairs. -/
abbrev AnnDict := List (String × PyAnn)

/-- Python `d[k]` lookup (first, and in a real dict only, binding of `k`). -/
def dictGet (d : AnnDict) (k : String) : Option PyAnn :=
  match d with
  | [] => none
  | (a, v) :: rest => if a = k then some v else dictGet rest k

/-- Python `d[k] = v`: replace the value of the first binding of `k` in
place, preserving insertion order; append `(k, v)` when `k` is absent. -/
def dictSet (d : AnnDict) (k : String) (v : PyAnn) : AnnDict :=
  match d with
  | [] => [(k, v)]
  | (a, w) :: rest => if a = k then (a, v) :: rest else (a, w) :: dictSet rest k v

/-- The exceptions the wrap-time body of `_add_keys` can raise:
`StopIteration` from `next(iter(annotations.items()))` on an empty dict, and
`KeyError` from the `annotations["return"]` lookup. -/
inductive WrapError where
  | stopIteration : WrapError
  | keyError : String → WrapError
deriving DecidableEq

/-- Lines 56-60 of `transforms.py`: copy the wrapped function's
`__annotations__`, take its first entry `(arg_name, annotation)`, set
`annotations[arg_name] = Tuple[Index, annotation]`, read
`annotations["return"]`, and set `annotations["return"]` to
`Tuple[Index, return annotation]`.  The result is the dict installed on the
wrapper (line 68). -/
def add_keys_anns (anns : AnnDict) : Except WrapError AnnDict :=
  match anns with
  | [] => Except.error WrapError.stopIteration
  | (argName, ann) :: _ =>
    let anns1 := dictSet anns argName (PyAnn.tupleIndex ann)
    match dictGet anns1 "return" with
    | none => Except.error (WrapError.keyError "return")
    | some retAnn => Except.ok (dictSet anns1 "return" (PyAnn.tupleIndex retAnn))

/-- Lines 63-66 of `transforms.py`, for a pure wrapped function `func` of one
positional value argument and keyword configuration `kwargs`:
`key, item = arg; result = func(item, **kwargs); return key, result`. -/
def add_keys_wrapper {K V C R : Type} (func : V → C → R) : K × V → C → K × R :=
  fun arg kwargs =>
    let key := arg.1
    let item := arg.2
    let result := func item kwargs
    (key, result)

/-- Lines 63-66 under Python exception semantics: when `func` raises, the
call `func(item, **kwargs)` aborts the wrapper body, so the exception
propagates unchanged; the wrapper adds no handler of its own. -/
def add_keys_wrapperE {K V C R E : Type} (func : V → C → Except E R) :
    K × V → C → Except E (K × R) :=
  fun arg kwargs =>
    let key := arg.1
    let item := arg.2
    match func item kwargs with
    | Except.error e => Except.error e
    | Except.ok result => Except.ok (key, result)

/-- Lines 63-66 under explicit state passing: all external state `S` that
`func` reads or writes is threaded through the one call `func(item, **kwargs)`;
the wrapper body performs no other state operation. -/
def add_keys_wrapperS {K V C R S : Type} (func : V → C → S → R × S) :
    K × V → C → S → (K × R) × S :=
  fun arg kwargs s =>
    let key := arg.1
    let item := arg.2
    let (result, s1) := func item kwargs s
    ((key, result), s1)

/-- A Python callable as `_add_keys` receives it: its `__annotations__`, the
number `arity` of positional parameters that are not supplied by the keyword
configuration, and its behaviour `run` on a positional-argument list plus the
keyword configuration. -/
structure PyCallable (A C R : Type) where
  anns : AnnDict
  arity : Nat
  run : List A → C → R

/-- Outcome of a Python call: a value, or a `TypeError` for a
positional-arity mismatch. -/
inductive CallResult (R : Type) where
  | ok : R → CallResult R
  | typeError : CallResult R
deriving DecidableEq

/-- Calling a `PyCallable` on a positional-argument list: Python raises
`TypeError` when the number of positional arguments does not match the
declared positional parameters. -/
def PyCallable.call {A C R : Type} (f : PyCallable A C R) (args : List A) (c : C) :
    CallResult R :=
  if args.length = f.arity then CallResult.ok (f.run args c) else CallResult.typeError

/-- The whole of `_add_keys` (lines 54-69) over a `PyCallable`: the wrap-time
annotation processing runs first and its exceptions abort the decoration;
otherwise the returned wrapper passes exactly one positional argument,
`item`, to `func` together with the keyword configuration.  Note no arity
check happens at wrap time. -/
def add_keys (K : Type) {A C R : Type} (f : PyCallable A C R) :
    Except WrapError (K × A → C → CallResult (K × R)) :=
  match add_keys_anns f.anns with
  | Except.error e => Except.error e
  | Except.ok _ =>
    Except.ok (fun arg kwargs =>
      let key := arg.1
      let item := arg.2
      match f.call [item] kwargs with
      | CallResult.ok result => CallResult.ok (key, result)
      | CallResult.typeError => CallResult.typeError)

/-- Decorating `f` with `_add_keys` and then processing one element `kv` with
configuration `c`: `Except.error` is a wrap-time exception, `Except.ok`
carries the per-element outcome. -/
def wrapThenCall {K A C R : Type} (f : PyCallable A C R) (kv : K × A) (c : C) :
    Except WrapError (CallResult (K × R)) :=
  match add_keys K f with
  | Except.error e => Except.error e
  | Except.ok w => Except.ok (w kv c)

/-- The configuration dataclass of `OpenURLWithFSSpec` (lines 73-84):
optional cache handle, optional secrets, optional extra open kwargs.  The
cache, secrets and kwargs types are opaque collaborators. -/
structure OpenURLWithFSSpec (Cache Secrets Kw : Type) where
  cache : Option Cache := none
  secrets : Option Secrets := none
  open_kwargs : Option Kw := none

/-- `OpenURLWithFSSpec.expand` (lines 86-92): apply
`beam.Map(_add_keys(open_url), cache=self.cache, secrets=self.secrets,
open_kwargs=self.open_kwargs)` to the collection.  `open_url` is the external
opener of `.openers`, passed as a parameter; the keyword configuration a
`beam.Map` call supplies to every invocation is the triple of the three
dataclass fields. -/
def OpenURLWithFSSpec.expand {Cache Secrets Kw H K : Type}
    (t : OpenURLWithFSSpec Cache Secrets Kw)
    (open_url : String → Option Cache × Option Secrets × Option Kw → H)
    (pcoll : List (K × String)) : List (K × H) :=
  pcoll.map (fun kv =>
    add_keys_wrapper open_url kv (t.cache, t.secrets, t.open_kwargs))

/-- `FileType` from `.patterns`.  Modelled from the spec: `patterns.py` is
not part of the excerpt; the spec only says the file-type hint defaults to
"unspecified/auto-detect" (`FileType.unknown`), other members are opaque. -/
inductive FileType where
  | unknown : FileType
  | other : String → FileType
deriving DecidableEq

/-- The configuration dataclass of `OpenWithXarray` (lines 95-111):
file-type hint, eager-load flag, copy-to-local flag, extra xarray kwargs
(whose default is a fresh empty dict, hence `some`-valued by default in the
source; the default value plays no role in the claims). -/
structure OpenWithXarray (Kw : Type) where
  file_type : FileType := FileType.unknown
  load : Bool := false
  copy_to_local : Bool := false
  xarray_open_kwargs : Option Kw

/-- `OpenWithXarray.expand` (lines 113-120): apply
`beam.Map(_add_keys(open_with_xarray), file_type=..., load=...,
copy_to_local=..., xarray_open_kwargs=...)`.  `open_with_xarray` is the
external opener, passed as a parameter; the keyword configuration is the
quadruple of the four dataclass fields. -/
def OpenWithXarray.expand {Kw Rsrc D K : Type}
    (t : OpenWithXarray Kw)
    (open_with_xarray : Rsrc → FileType × Bool × Bool × Option Kw → D)
    (pcoll : List (K × Rsrc)) : List (K × D) :=
  pcoll.map (fun kv =>
    add_keys_wrapper open_with_xarray kv
      (t.file_type, t.load, t.copy_to_local, t.xarray_open_kwargs))

/-- Upper-casing a string character by character: the model of the
`str.upper` example used in the spec (correct for ASCII inputs such as
"abc"). -/
def pyUpper (s : String) : String :=
  String.mk (s.data.map Char.toUpper)

/-- Concrete annotated Python function of two positional parameters
(`def f(a: int, b: int) -> int`), used to probe the decorator's behaviour on
a callable that does not take exactly one positional value argument. -/
def exTwoArg : PyCallable Int Unit Int :=
  { anns := [("a", PyAnn.atom "int"), ("b", PyAnn.atom "int"), ("return", PyAnn.atom "int")],
    arity := 2,
    run := fun args _ => args.headD 0 }

/-- The annotations dict that claim C10 says the wrapper should carry,
written from the claim's words: the entry of the first declared parameter
(key `a`, original value `α`) becomes `Tuple[Index, α]`, the `"return"` entry
(original value `ρ`) becomes `Tuple[Index, ρ]`, every other entry is
unchanged, and the key sequence is untouched. -/
def claimedAnnRewrite (anns : AnnDict) (a : String) (pa ra : PyAnn) : AnnDict :=
  anns.map (fun p =>
    if p.1 = a then (p.1, PyAnn.tupleIndex pa)
    else if p.1 = "return" then (p.1, PyAnn.tupleIndex ra)
    else p)

/-! ### Association-list lemmas about the Python-dict model -/

theorem dictGet_dictSet_self (d : AnnDict) (k : String) (v : PyAnn) :
    dictGet (dictSet d k v) k = some v := by
  induction d with
  | nil => simp [dictSet, dictGet]
  | cons p rest ih =>
    obtain ⟨a, w⟩ := p
    by_cases h : a = k
    · simp [dictSet, dictGet, h]
    · simp [dictSet, dictGet, h, ih]

theorem dictGet_dictSet_ne (d : AnnDict) (k k' : String) (v : PyAnn) (h : k' ≠ k) :
    dictGet (dictSet d k v) k' = dictGet d k' := by
  have hkk : ¬(k = k') := fun hk => h hk.symm
  induction d with
  | nil => simp [dictSet, dictGet, hkk]
  | cons p rest ih =>
    obtain ⟨a, w⟩ := p
    by_cases ha : a = k
    · subst ha
      simp [dictSet, dictGet, hkk]
    · simp [dictSet, dictGet, ha, ih]

theorem dictSet_eq_map_of_get (d : AnnDict) (k : String) (v w : PyAnn)
    (hget : dictGet d k = some w) (hnd : (d.map Prod.fst).Nodup) :
    dictSet d k v = d.map (fun p => if p.1 = k then (p.1, v) else p) := by
  induction d with
  | nil => simp [dictGet] at hget
  | cons p rest ih =>
    obtain ⟨a, b⟩ := p
    simp only [List.map_cons, List.nodup_cons] at hnd
    by_cases h : a = k
    · subst h
      have hrest : rest.map (fun p => if p.1 = a then (p.1, v) else p) = rest := by
        have : ∀ p ∈ rest, (if p.1 = a then (p.1, v) else p) = p := by
          intro p hp
          have : p.1 ≠ a := by
            intro hpa
            exact hnd.1 (hpa ▸ List.mem_map_of_mem Prod.fst hp)
          simp [this]
        calc rest.map (fun p => if p.1 = a then (p.1, v) else p)
            = rest.map id := List.map_congr_left this
          _ = rest := List.map_id rest
      simp [dictSet, hrest]
    · have hget' : dictGet rest k = some w := by
        simpa [dictGet, h] using hget
      simp [dictSet, h, ih hget' hnd.2]

theorem map_fst_dictSet_of_get (d : AnnDict) (k : String) (v w : PyAnn)
    (hget : dictGet d k = some w) :
    (dictSet d k v).map Prod.fst = d.map Prod.fst := by
  induction d with
  | nil => simp [dictGet] at hget
  | cons p rest ih =>
    obtain ⟨a, b⟩ := p
    by_cases h : a = k
    · simp [dictSet, h]
    · have hget' : dictGet rest k = some w := by
        simpa [dictGet, h] using hget
      simp [dictSet, h, ih hget']

/-! ### Claim theorems -/

/-- C1: for every key `k`, value `v`, pure single-positional-argument
function `f` and keyword configuration `c`, the `_add_keys`-wrapped function
applied to `(k, v)` with configuration `c` returns exactly `(k, f v c)`;
with empty configuration this is `(k, f(v))`, and in particular wrapping the
`str.upper` model and applying it to `("id1", "abc")` yields
`("id1", "ABC")`. -/
theorem add_keys_wrapper_unpacks_and_rekeys :
    (∀ (K V C R : Type) (f : V → C → R) (k : K) (v : V) (c : C),
      add_keys_wrapper f (k, v) c = (k, f v c)) ∧
    add_keys_wrapper (fun s (_ : Unit) => pyUpper s) ("id1", "abc") () = ("id1", "ABC") :=
  ⟨fun _ _ _ _ _ _ _ _ => rfl, rfl⟩

/-- C3: `OpenURLWithFSSpec.expand` maps every element `(k, url)` of the
input collection to exactly `(k, open_url url (cache, secrets, open_kwargs))`
with the transform's own configuration fields; in particular, with all
fields at their `None` defaults, the element `("a", "https://example/file.nc")`
becomes `("a", open_url "https://example/file.nc" (none, none, none))`. -/
theorem openURLWithFSSpec_expand_maps_open_url :
    (∀ (Cache Secrets Kw H K : Type) (t : OpenURLWithFSSpec Cache Secrets Kw)
      (open_url : String → Option Cache × Option Secrets × Option Kw → H)
      (pcoll : List (K × String)),
      t.expand open_url pcoll =
        pcoll.map (fun kv => (kv.1, open_url kv.2 (t.cache, t.secrets, t.open_kwargs)))) ∧
    (∀ (Cache Secrets Kw H : Type)
      (open_url : String → Option Cache × Option Secrets × Option Kw → H),
      OpenURLWithFSSpec.expand ⟨none, none, none⟩ open_url
          [(("a" : String), ("https://example/file.nc" : String))] =
        [("a", open_url "https://example/file.nc" (none, none, none))]) :=
  ⟨fun _ _ _ _ _ _ _ _ => rfl, fun _ _ _ _ _ => rfl⟩

/-- C4: `OpenWithXarray.expand` maps every element `(k, r)` of the input
collection to exactly
`(k, open_with_xarray r (file_type, load, copy_to_local, xarray_open_kwargs))`
with the transform's own configuration fields, i.e. an output element of
shape (key, structured-dataset-handle). -/
theorem openWithXarray_expand_maps_open_with_xarray :
    ∀ (Kw Rsrc D K : Type) (t : OpenWithXarray Kw)
      (open_with_xarray : Rsrc → FileType × Bool × Bool × Option Kw → D)
      (pcoll : List (K × Rsrc)),
      t.expand open_with_xarray pcoll =
        pcoll.map (fun kv =>
          (kv.1, open_with_xarray kv.2
            (t.file_type, t.load, t.copy_to_local, t.xarray_open_kwargs))) :=
  fun _ _ _ _ _ _ _ => rfl

/-- C5: the key component of the wrapper's output is the input key itself,
for every key type `K` uniformly: the wrapper is parametric in `K`, the
formal counterpart of "never inspects, hashes, or mutates the key", and only
the value component is transformed. -/
theorem add_keys_wrapper_preserves_key :
    ∀ (K V C R : Type) (f : V → C → R) (kv : K × V) (c : C),
      (add_keys_wrapper f kv c).1 = kv.1 :=
  fun _ _ _ _ _ _ _ => rfl

/-- C6: under exception semantics, when the wrapped function raises `e`, the
wrapped call raises that same `e` unchanged, and when the wrapped function
returns `r`, the wrapped call returns `(k, r)` without introducing any
exception of its own. -/
theorem add_keys_wrapperE_propagates_errors {K V C R E : Type}
    (func : V → C → Except E R) (k : K) (v : V) (c : C) :
    (∀ e, func v c = Except.error e →
      add_keys_wrapperE func (k, v) c = Except.error e) ∧
    (∀ r, func v c = Except.ok r →
      add_keys_wrapperE func (k, v) c = Except.ok (k, r)) := by
  constructor
  · intro e he
    simp [add_keys_wrapperE, he]
  · intro r hr
    simp [add_keys_wrapperE, hr]

/-- Witness for C6 at concrete inputs: a function that raises propagates its
error through the wrapper, and a function that succeeds is rekeyed. -/
theorem add_keys_wrapperE_propagates_errors_witness :
    add_keys_wrapperE (fun (_ : Nat) (_ : Unit) => (Except.error "boom" : Except String Nat))
        ((0 : Nat), (5 : Nat)) () = Except.error "boom" ∧
    add_keys_wrapperE (fun (n : Nat) (_ : Unit) => (Except.ok (n + 1) : Except String Nat))
        ((0 : Nat), (5 : Nat)) () = Except.ok (0, 6) :=
  ⟨(add_keys_wrapperE_propagates_errors _ 0 5 ()).1 "boom" rfl,
   (add_keys_wrapperE_propagates_errors _ 0 5 ()).2 6 rfl⟩

/-- C7: every per-element invocation performed by either transform's
`expand` receives exactly the configuration record fixed at construction
time: for every position `i` of `OpenURLWithFSSpec`'s output and every
position `j` of `OpenWithXarray`'s output, the element is the opener applied
to that element's value with the transform's own (unchanged) fields.  The
embedding is pure, so no invocation can alter the configuration seen by
later invocations. -/
theorem expand_config_constant_across_invocations
    {Cache Secrets Kw H K Kw2 Rsrc D : Type}
    (t : OpenURLWithFSSpec Cache Secrets Kw)
    (open_url : String → Option Cache × Option Secrets × Option Kw → H)
    (pcollU : List (K × String)) (i : Nat)
    (u : OpenWithXarray Kw2)
    (open_with_xarray : Rsrc → FileType × Bool × Bool × Option Kw2 → D)
    (pcollX : List (K × Rsrc)) (j : Nat) :
    (t.expand open_url pcollU)[i]? =
      (pcollU[i]?).map (fun kv => (kv.1, open_url kv.2 (t.cache, t.secrets, t.open_kwargs))) ∧
    (u.expand open_with_xarray pcollX)[j]? =
      (pcollX[j]?).map (fun kv =>
        (kv.1, open_with_xarray kv.2
          (u.file_type, u.load, u.copy_to_local, u.xarray_open_kwargs))) := by
  constructor
  · simp [OpenURLWithFSSpec.expand, add_keys_wrapper]
  · simp [OpenWithXarray.expand, add_keys_wrapper]

/-- C8: the adapter is a pure structural pass-through.  Threading all state
`S` the wrapped function touches explicitly, the wrapper's output state is
exactly the wrapped function's output state (the adapter reads and writes no
state of its own), and its result is the input key paired with the wrapped
function's result; being a function of its arguments, two invocations on the
same element, configuration and state are equal. -/
theorem add_keys_wrapperS_pure_pass_through :
    ∀ (K V C R S : Type) (func : V → C → S → R × S) (kv : K × V) (c : C) (s : S),
      add_keys_wrapperS func kv c s = ((kv.1, (func kv.2 c s).1), (func kv.2 c s).2) :=
  fun _ _ _ _ _ _ _ _ _ => rfl

/-- C2 counterexample: `exTwoArg` does not accept exactly one positional
value argument (its arity is 2), yet decorating it with `_add_keys` succeeds
at wrap time — the decoration result is `Except.ok`, not a wrap-time error —
and the arity mismatch surfaces only while processing the element
`(7, 5)`, as a per-element `TypeError`.  This refutes the claim that the
mismatch is rejected at wrap/construction time and never deferred to
per-element processing time. -/
theorem add_keys_arity_not_checked_at_wrap_time :
    wrapThenCall exTwoArg ((7 : Nat), (5 : Int)) () = Except.ok CallResult.typeError ∧
    exTwoArg.arity ≠ 1 :=
  ⟨rfl, by decide⟩

/-- C2 amended: `_add_keys` performs no arity validation at wrap time.  For
every callable whose annotation processing succeeds but whose positional
arity is not 1, decoration succeeds and every per-element invocation — the
wrapper passes the single positional argument `item` — raises `TypeError` at
processing time. -/
theorem add_keys_arity_mismatch_per_element {A C R : Type} (f : PyCallable A C R)
    (hwrap : ∃ a, add_keys_anns f.anns = Except.ok a) (har : f.arity ≠ 1)
    (K : Type) (kv : K × A) (c : C) :
    wrapThenCall f kv c = Except.ok CallResult.typeError := by
  obtain ⟨a, ha⟩ := hwrap
  have h1 : ¬((1 : Nat) = f.arity) := fun h => har h.symm
  simp [wrapThenCall, add_keys, ha, PyCallable.call, h1]

/-- Witness for the amended C2 at a concrete input: the annotated two-argument
function wraps fine and fails per element. -/
theorem add_keys_arity_mismatch_per_element_witness :
    wrapThenCall exTwoArg ((3 : Nat), (4 : Int)) () = Except.ok CallResult.typeError :=
  add_keys_arity_mismatch_per_element exTwoArg ⟨_, rfl⟩ (by decide) Nat (3, 4) ()

/-- C9: the wrap-time precondition of `_add_keys` on `__annotations__`: an
empty annotations dict makes `next(iter(annotations.items()))` raise
`StopIteration` at wrap time, and a non-empty dict without a `"return"` key
makes the `annotations["return"]` lookup raise `KeyError` at wrap time; in
both cases before any element is processed. -/
theorem add_keys_anns_wrap_time_errors (anns : AnnDict) :
    (anns = [] → add_keys_anns anns = Except.error WrapError.stopIteration) ∧
    (anns ≠ [] → dictGet anns "return" = none →
      add_keys_anns anns = Except.error (WrapError.keyError "return")) := by
  constructor
  · intro h
    subst h
    rfl
  · intro hne hret
    rcases anns with _ | ⟨⟨a, ann⟩, rest⟩
    · exact absurd rfl hne
    · have haret : a ≠ "return" := by
        intro h
        simp [dictGet, h] at hret
      have h1 : dictGet (dictSet ((a, ann) :: rest) a (PyAnn.tupleIndex ann)) "return" =
          none := by
        rw [dictGet_dictSet_ne _ _ _ _ (Ne.symm haret)]
        exact hret
      simp [add_keys_anns, h1]

/-- Witness for C9: the empty dict raises StopIteration, and the singleton
dict lacking a return key raises KeyError. -/
theorem add_keys_anns_wrap_time_errors_witness :
    add_keys_anns [] = Except.error WrapError.stopIteration ∧
    add_keys_anns [("x", PyAnn.atom "int")] = Except.error (WrapError.keyError "return") :=
  ⟨(add_keys_anns_wrap_time_errors []).1 rfl,
   (add_keys_anns_wrap_time_errors [("x", PyAnn.atom "int")]).2 (by decide) rfl⟩

/-- C10 counterexample: for the annotated function with annotations
`{"return": int}` (no annotated parameter, as for `def f() -> int`), the
decorator succeeds and double-wraps the return annotation to
`Tuple[Index, Tuple[Index, int]]`, whereas the claim's description — the
return annotation becomes `Tuple[Index, original return annotation]` —
predicts `Tuple[Index, int]`. -/
theorem add_keys_anns_return_only_cex :
    add_keys_anns [("return", PyAnn.atom "int")] =
      Except.ok [("return", PyAnn.tupleIndex (PyAnn.tupleIndex (PyAnn.atom "int")))] ∧
    add_keys_anns [("return", PyAnn.atom "int")] ≠
      Except.ok [("return", PyAnn.tupleIndex (PyAnn.atom "int"))] := by
  refine ⟨rfl, fun h => ?_⟩
  rw [show add_keys_anns [("return", PyAnn.atom "int")] =
      Except.ok [("return", PyAnn.tupleIndex (PyAnn.tupleIndex (PyAnn.atom "int")))] from rfl] at h
  simp at h

/-- C10 amended: for every annotated function whose first annotation entry is
a declared parameter (its key `a` differs from `"return"`), whose annotations
contain a `"return"` entry, and whose keys are distinct (as in any Python
dict), the wrapper's annotations are the function's with exactly the first
parameter's annotation and the return annotation wrapped in `Tuple[Index, ·]`
and all other entries and the key order unchanged (`claimedAnnRewrite`);
the function's own annotations mapping is left unmodified, which the purity
of `add_keys_anns` models (`_add_keys` edits a `.copy()`). -/
theorem add_keys_anns_rewrites_first_and_return (a : String) (pa ra : PyAnn)
    (rest : AnnDict) (ha : a ≠ "return")
    (hret : dictGet ((a, pa) :: rest) "return" = some ra)
    (hnd : (((a, pa) :: rest).map Prod.fst).Nodup) :
    add_keys_anns ((a, pa) :: rest) =
      Except.ok (claimedAnnRewrite ((a, pa) :: rest) a pa ra) := by
  have hgeta : dictGet ((a, pa) :: rest) a = some pa := by simp [dictGet]
  have h1 : dictGet (dictSet ((a, pa) :: rest) a (PyAnn.tupleIndex pa)) "return" =
      some ra := by
    rw [dictGet_dictSet_ne _ _ _ _ (Ne.symm ha)]
    exact hret
  have e1 : dictSet ((a, pa) :: rest) a (PyAnn.tupleIndex pa) =
      ((a, pa) :: rest).map (fun p => if p.1 = a then (p.1, PyAnn.tupleIndex pa) else p) :=
    dictSet_eq_map_of_get _ _ _ pa hgeta hnd
  have hnd1 : ((dictSet ((a, pa) :: rest) a (PyAnn.tupleIndex pa)).map Prod.fst).Nodup := by
    rw [map_fst_dictSet_of_get _ _ _ pa hgeta]
    exact hnd
  have e2 : dictSet (dictSet ((a, pa) :: rest) a (PyAnn.tupleIndex pa)) "return"
        (PyAnn.tupleIndex ra) =
      (dictSet ((a, pa) :: rest) a (PyAnn.tupleIndex pa)).map
        (fun p => if p.1 = "return" then (p.1, PyAnn.tupleIndex ra) else p) :=
    dictSet_eq_map_of_get _ _ _ ra h1 hnd1
  have step : add_keys_anns ((a, pa) :: rest) =
      Except.ok (dictSet (dictSet ((a, pa) :: rest) a (PyAnn.tupleIndex pa)) "return"
        (PyAnn.tupleIndex ra)) := by
    simp only [add_keys_anns, h1]
  rw [step, e2, e1, List.map_map]
  unfold claimedAnnRewrite
  congr 1
  apply List.map_congr_left
  intro p _
  by_cases hpa : p.1 = a
  · simp [Function.comp, hpa, ha]
  · by_cases hpr : p.1 = "return"
    · simp [Function.comp, hpa, hpr, Ne.symm ha]
    · simp [Function.comp, hpa, hpr]

/-- Witness for the amended C10 at a concrete annotated one-parameter
function (`def f(s: str) -> str`). -/
theorem add_keys_anns_rewrites_first_and_return_witness :
    add_keys_anns [("s", PyAnn.atom "str"), ("return", PyAnn.atom "str")] =
      Except.ok (claimedAnnRewrite [("s", PyAnn.atom "str"), ("return", PyAnn.atom "str")]
        "s" (PyAnn.atom "str") (PyAnn.atom "str")) :=
  add_keys_anns_rewrites_first_and_return "s" (PyAnn.atom "str") (PyAnn.atom "str")
    [("return", PyAnn.atom "str")] (by decide) rfl (by decide)

end PangeoForge
